import Mathlib

/-!
# NanoClaw pairing and message-admission layer: a shallow embedding

This file embeds, in Lean, the pairing state machine (`pairing.ts`), the
message-admission filter (`matrix-monitor.ts`), the configuration loader
(`matrix-client.ts`) and the pairing CLI of the NanoClaw repository, and
proves the specified properties about them.

Modelling conventions:
* The two on-disk JSON slots (`owner.json`, `pending_pairing.json`) are a
  `PairingState` record with two `Option` fields; every operation takes the
  current state and returns the new one.
* Timestamps (`Date.now()`, ISO strings converted back with `getTime()`)
  are modelled as `Nat` milliseconds; `new Date().toISOString()` stored in
  a record becomes the current `Nat` time.
* `crypto.randomInt(0, alphabet.length)` is modelled by a supplied
  function `rand : Nat → Fin pairingAlphabet.length` giving the random
  index drawn at each loop iteration.
* JavaScript `undefined` / missing JSON fields are `Option`; the JS
  falsiness of a possibly-undefined string (`!x`, true for both
  `undefined` and `""`) is `envFalsy`.
* The regular-expression tests (`mentionPattern.test`, `TRIGGER_PATTERN.test`)
  and the joined-member lookup are external collaborators; they enter the
  admission function as parameters (`mentionTest`, `triggerTest`,
  `members`, the latter `none` when the lookup throws).
-/

namespace NanoClaw

/-- `PAIRING_CODE_TTL_MS = 10 * 60 * 1000` from `pairing.ts`. -/
def PAIRING_CODE_TTL_MS : Nat := 10 * 60 * 1000

/-- `PAIRING_CODE_LENGTH = 8` from `pairing.ts`. -/
def PAIRING_CODE_LENGTH : Nat := 8

/-- The code alphabet `'ABCDEFGHJKLMNPQRSTUVWXYZ23456789'` from
`generateCode` in `pairing.ts` (comment in source: "No 0O1I"). -/
def pairingAlphabet : List Char := "ABCDEFGHJKLMNPQRSTUVWXYZ23456789".toList

/-- The `Owner` record of `pairing.ts`; `pairedAt` (an ISO timestamp in the
source) is modelled as `Nat` milliseconds. -/
structure Owner where
  ownerId : String
  mainRoomId : String
  pairedAt : Nat
deriving Repr, DecidableEq

/-- The `PendingPairing` record of `pairing.ts`. The requester-id field is
spelled `oderId` in the source (a typo kept verbatim there); we keep the
source's name. `createdAt` is modelled as `Nat` milliseconds. -/
structure PendingPairing where
  code : String
  oderId : String
  roomId : String
  roomName : String
  createdAt : Nat
deriving Repr, DecidableEq

/-- The two persistent slots owned by the pairing store:
`owner.json` and `pending_pairing.json`, each possibly absent. -/
structure PairingState where
  owner : Option Owner
  pending : Option PendingPairing
deriving Repr, DecidableEq

/-- `generateCode` from `pairing.ts`: 8 draws from the alphabet, indices
supplied by `rand` (modelling `crypto.randomInt(0, alphabet.length)`). -/
def generateCode (rand : Nat → Fin pairingAlphabet.length) : String :=
  String.mk ((List.range PAIRING_CODE_LENGTH).map (fun i => pairingAlphabet.get (rand i)))

/-- `getOwner` from `pairing.ts` (reads the owner slot). -/
def getOwner (s : PairingState) : Option Owner :=
  s.owner

/-- `isOwner` from `pairing.ts`: `owner?.ownerId === userId`. -/
def isOwner (s : PairingState) (userId : String) : Bool :=
  match getOwner s with
  | some o => o.ownerId = userId
  | none => false

/-- `isPaired` from `pairing.ts`: `getOwner() !== null`. -/
def isPaired (s : PairingState) : Bool :=
  (getOwner s).isSome

/-- `getMainRoomId` from `pairing.ts`. -/
def getMainRoomId (s : PairingState) : Option String :=
  (getOwner s).map Owner.mainRoomId

/-- `isMainRoom` from `pairing.ts`: `owner?.mainRoomId === roomId`. -/
def isMainRoom (s : PairingState) (roomId : String) : Bool :=
  match getOwner s with
  | some o => o.mainRoomId = roomId
  | none => false

/-- `createPairingRequest` from `pairing.ts`: generates a fresh code,
overwrites the pending slot, returns the code. -/
def createPairingRequest (s : PairingState) (rand : Nat → Fin pairingAlphabet.length)
    (userId roomId roomName : String) (now : Nat) : String × PairingState :=
  let code := generateCode rand
  (code,
   { s with pending := some { code := code, oderId := userId, roomId := roomId,
                              roomName := roomName, createdAt := now } })

/-- `getPendingPairing` from `pairing.ts`: reads the pending slot; when
`now − createdAt > TTL` deletes the slot (lazy expiry) and returns `none`. -/
def getPendingPairing (s : PairingState) (now : Nat) : Option PendingPairing × PairingState :=
  match s.pending with
  | none => (none, s)
  | some pending =>
    if now - pending.createdAt > PAIRING_CODE_TTL_MS then
      (none, { s with pending := none })
    else
      (some pending, s)

/-- JavaScript `String.prototype.toUpperCase` restricted to the characters
that occur here: uppercases every character of the string. -/
def toUpperCase (s : String) : String :=
  String.mk (s.data.map Char.toUpper)

/-- `approvePairing` from `pairing.ts`: reads the pending record through
`getPendingPairing`, compares codes case-insensitively
(`pending.code.toUpperCase() !== code.toUpperCase()`), and on match
persists the new owner and deletes the pending slot. -/
def approvePairing (s : PairingState) (code : String) (now : Nat) : Option Owner × PairingState :=
  match getPendingPairing s now with
  | (none, s1) => (none, s1)
  | (some pending, s1) =>
    if toUpperCase pending.code ≠ toUpperCase code then
      (none, s1)
    else
      let owner : Owner := { ownerId := pending.oderId, mainRoomId := pending.roomId,
                             pairedAt := now }
      (some owner, { s1 with owner := some owner, pending := none })

/-! ## Configuration (`matrix-types.ts`, `matrix-client.ts`) -/

/-- `MatrixRoomConfig` from `matrix-types.ts`; every field is optional. -/
structure MatrixRoomConfig where
  enabled : Option Bool
  requireMention : Option Bool
  folder : Option String
  triggerPattern : Option String
deriving Repr, DecidableEq

/-- `MatrixConfig` from `matrix-types.ts`. Since `JSON.parse` performs no
validation, a value read from `matrix_config.json` may lack any field, so
even the nominally required credential strings are `Option` here; the
`rooms` record is an association list keyed by room id. -/
structure MatrixConfig where
  homeserver : Option String
  userId : Option String
  accessToken : Option String
  encryption : Option Bool
  rooms : Option (List (String × MatrixRoomConfig))
  requireMention : Option Bool
deriving Repr, DecidableEq

/-- The five environment variables consulted by `loadMatrixConfig`,
each possibly unset. -/
structure MatrixEnv where
  MATRIX_HOMESERVER : Option String
  MATRIX_USER_ID : Option String
  MATRIX_ACCESS_TOKEN : Option String
  MATRIX_ENCRYPTION : Option String
  MATRIX_REQUIRE_MENTION : Option String
deriving Repr, DecidableEq

/-- JavaScript falsiness of a possibly-undefined string: `!x` is true when
`x` is `undefined` or the empty string. -/
def envFalsy : Option String → Bool
  | none => true
  | some s => s == ""

/-- `loadMatrixConfig` from `matrix-client.ts`. `fileContents` is
`some parsed` when `data/matrix_config.json` exists and parses to
`parsed` (returned as-is, no field validation), `none` when the file is
absent; in the latter case the environment variables are consulted and
the missing-credentials error is thrown when any of the three credential
variables is falsy. -/
def loadMatrixConfig (fileContents : Option MatrixConfig) (env : MatrixEnv) :
    Except String MatrixConfig :=
  match fileContents with
  | some parsed => .ok parsed
  | none =>
    if envFalsy env.MATRIX_HOMESERVER || envFalsy env.MATRIX_USER_ID ||
       envFalsy env.MATRIX_ACCESS_TOKEN then
      .error "Matrix credentials not configured"
    else
      .ok { homeserver := env.MATRIX_HOMESERVER
            userId := env.MATRIX_USER_ID
            accessToken := env.MATRIX_ACCESS_TOKEN
            encryption := some (env.MATRIX_ENCRYPTION == some "true")
            rooms := none
            requireMention := some (env.MATRIX_REQUIRE_MENTION != some "false") }

/-! ## Message admission (`matrix-monitor.ts`) -/

/-- The fields of a `room.message` event's `content` consulted by the
monitor (`msgtype`, `body`); each may be absent. Thread metadata and
timestamps do not influence admission and are not modelled. -/
structure EventContent where
  msgtype : Option String
  body : Option String
deriving Repr, DecidableEq

/-- The fields of a `room.message` event consulted by the admission
decision: the sender and the (possibly absent) content object. -/
structure RoomEvent where
  sender : String
  content : Option EventContent
deriving Repr, DecidableEq

/-- JavaScript `String.prototype.trim`: strips whitespace from both ends
of the string. -/
def jsTrim (s : String) : String :=
  String.mk (((s.data.dropWhile Char.isWhitespace).reverse.dropWhile
    Char.isWhitespace).reverse)

/-- `config.rooms?.[roomId] ?? null` from `matrix-monitor.ts`. -/
def lookupRoomConfig (cfg : MatrixConfig) (roomId : String) : Option MatrixRoomConfig :=
  cfg.rooms.bind (fun rs => rs.lookup roomId)

/-- `members.length <= 2` with the `catch` branch leaving `isDM = false`:
`members` is `none` when `getJoinedRoomMembers` throws. -/
def computeIsDM (members : Option (List String)) : Bool :=
  match members with
  | some l => decide (l.length ≤ 2)
  | none => false

/-- `isDM ? false : (roomConfig?.requireMention ?? config.requireMention ?? !isMain)`
from `matrix-monitor.ts`. -/
def computeRequireMention (isDM : Bool) (roomConfig : Option MatrixRoomConfig)
    (cfg : MatrixConfig) (isMain : Bool) : Bool :=
  if isDM then false
  else (roomConfig.bind MatrixRoomConfig.requireMention).getD
         (cfg.requireMention.getD (!isMain))

/-- Outcome of the `room.message` handler in `startMatrixMonitor`: one
constructor per early `return` (in source order) plus the final dispatch
to `onMessage` carrying the arguments that matter to admission (the
trimmed text, the resolved room config and the `isMain` flag). -/
inductive AdmitResult where
  | rejectOwnSender
  | rejectNonText
  | rejectEmptyBody
  | rejectDisabled
  | rejectNoMention
  | dispatch (text : String) (roomConfig : Option MatrixRoomConfig) (isMain : Bool)
deriving Repr, DecidableEq

/-- The `room.message` handler of `startMatrixMonitor` in
`matrix-monitor.ts`, from the own-sender check down to the `onMessage`
dispatch. `mentionTest`/`triggerTest` model `mentionPattern.test` and
`TRIGGER_PATTERN.test`; `members` models `getJoinedRoomMembers` (`none`
when the lookup throws); `s` is the pairing state read by `isPaired`
and `isMainRoom`. -/
def handleRoomMessage (cfg : MatrixConfig) (s : PairingState) (roomId : String)
    (ev : RoomEvent) (members : Option (List String))
    (mentionTest triggerTest : String → Bool) : AdmitResult :=
  if cfg.userId = some ev.sender then .rejectOwnSender
  else
    match ev.content with
    | none => .rejectNonText
    | some content =>
      if content.msgtype ≠ some "m.text" ∨ content.body.getD "" = "" then .rejectNonText
      else
        let text := jsTrim (content.body.getD "")
        if text = "" then .rejectEmptyBody
        else
          let roomConfig := lookupRoomConfig cfg roomId
          if roomConfig.bind MatrixRoomConfig.enabled = some false then .rejectDisabled
          else
            let isMain := isPaired s && isMainRoom s roomId
            let isDM := computeIsDM members
            let requireMention := computeRequireMention isDM roomConfig cfg isMain
            if requireMention && !mentionTest text && !triggerTest text then .rejectNoMention
            else .dispatch text roomConfig isMain

/-! ## The pairing CLI (`pair.ts`) -/

/-- The `RegisteredGroup` value written to `registered_groups.json`. -/
structure RegisteredGroup where
  name : String
  folder : String
  trigger : String
  added_at : Nat
deriving Repr, DecidableEq

/-- The four exit paths of the pairing CLI. -/
inductive CliOutcome where
  | usage
  | alreadyPaired (o : Owner)
  | invalidCode
  | success (o : Owner)
deriving Repr, DecidableEq

/-- The process exit status of each CLI path: 0 on success, 1 otherwise. -/
def CliOutcome.exitCode : CliOutcome → Nat
  | .success _ => 0
  | _ => 1

/-- What running the CLI leaves behind: the outcome (hence exit status),
the pairing state, the registered-groups map, and whether the run ever
called `approvePairing`. -/
structure CliResult where
  outcome : CliOutcome
  state : PairingState
  groups : List (String × RegisteredGroup)
  calledApprovePairing : Bool
deriving Repr, DecidableEq

/-- `groups[key] = value` on the parsed JSON object, as an association-list
update. -/
def setGroup (groups : List (String × RegisteredGroup)) (key : String)
    (value : RegisteredGroup) : List (String × RegisteredGroup) :=
  groups.filter (fun e => e.1 ≠ key) ++ [(key, value)]

/-- The pairing CLI (`npm run pair <code>`). `argCode` is `process.argv[2]`
(`none` when absent; the `if (!code)` guard also fires on an empty-string
argument). With no usable code it prints status (the diagnostic branch
itself calls `getPendingPairing`, which may lazily clean an expired
record) and exits 1. With a code: if an owner already exists it refuses
without calling `approvePairing` and exits 1; otherwise it calls
`approvePairing`, and on failure prints a diagnostic (again via
`getPendingPairing`) and exits 1, while on success it registers the main
group under the owner's room and exits 0. -/
def pairCli (argCode : Option String) (s : PairingState)
    (groups : List (String × RegisteredGroup)) (mainGroupFolder : String)
    (now : Nat) : CliResult :=
  if argCode.getD "" = "" then
    let r := getPendingPairing s now
    { outcome := .usage, state := r.2, groups := groups, calledApprovePairing := false }
  else
    match getOwner s with
    | some existingOwner =>
      { outcome := .alreadyPaired existingOwner, state := s, groups := groups,
        calledApprovePairing := false }
    | none =>
      match approvePairing s (argCode.getD "") now with
      | (none, s1) =>
        let r := getPendingPairing s1 now
        { outcome := .invalidCode, state := r.2, groups := groups,
          calledApprovePairing := true }
      | (some owner, s1) =>
        { outcome := .success owner, state := s1,
          groups := setGroup groups owner.mainRoomId
            { name := "main", folder := mainGroupFolder, trigger := "@Andy",
              added_at := now },
          calledApprovePairing := true }

/-! ## Test fixtures (concrete inputs for the witness theorems) -/

/-- A concrete unexpired pending-pairing record. -/
def pTest : PendingPairing :=
  { code := "ABCDQRST", oderId := "@alice:example.org", roomId := "!main:example.org",
    roomName := "general", createdAt := 0 }

/-- A concrete unpaired state holding `pTest`. -/
def sTest : PairingState := { owner := none, pending := some pTest }

/-- A concrete owner record. -/
def ownerTest : Owner :=
  { ownerId := "@bob:example.org", mainRoomId := "!old:example.org", pairedAt := 1 }

/-- A concrete state that is already paired and also holds `pTest`. -/
def sPairedTest : PairingState := { owner := some ownerTest, pending := some pTest }

/-! ## Claims about the pairing service -/

/-- Reading an unexpired pending record succeeds and leaves the state
unchanged. -/
theorem getPendingPairing_fresh (s : PairingState) (p : PendingPairing) (now : Nat)
    (hp : s.pending = some p) (hfresh : now - p.createdAt ≤ PAIRING_CODE_TTL_MS) :
    getPendingPairing s now = (some p, s) := by
  simp only [getPendingPairing, hp]
  rw [if_neg (Nat.not_lt.mpr hfresh)]

/-- **C1.** With an unexpired pending record and a code equal to the stored
code up to letter case, `approvePairing` persists a new owner built from
the pending record's requester (`oderId`) and room, deletes the pending
record, and returns that owner; a second call with the same code
afterwards returns `none` because the record has been consumed. -/
theorem C1_approvePairing_match_consumes (s : PairingState) (p : PendingPairing)
    (code : String) (now now2 : Nat)
    (hp : s.pending = some p)
    (hfresh : now - p.createdAt ≤ PAIRING_CODE_TTL_MS)
    (hcode : toUpperCase p.code = toUpperCase code) :
    approvePairing s code now =
      (some { ownerId := p.oderId, mainRoomId := p.roomId, pairedAt := now },
       { owner := some { ownerId := p.oderId, mainRoomId := p.roomId, pairedAt := now },
         pending := none }) ∧
    (approvePairing (approvePairing s code now).2 code now2).1 = none := by
  have hget := getPendingPairing_fresh s p now hp hfresh
  have h1 : approvePairing s code now =
      (some { ownerId := p.oderId, mainRoomId := p.roomId, pairedAt := now },
       { owner := some { ownerId := p.oderId, mainRoomId := p.roomId, pairedAt := now },
         pending := none }) := by
    simp [approvePairing, hget, hcode]
  refine ⟨h1, ?_⟩
  rw [h1]
  simp [approvePairing, getPendingPairing]

/-- Witness for C1 on the concrete fixture: approving `pTest`'s code in
lowercase pairs `@alice` and a repeated approval fails. -/
theorem C1_witness :
    approvePairing sTest "abcdqrst" 5 =
      (some { ownerId := "@alice:example.org", mainRoomId := "!main:example.org",
              pairedAt := 5 },
       { owner := some { ownerId := "@alice:example.org",
                         mainRoomId := "!main:example.org", pairedAt := 5 },
         pending := none }) ∧
    (approvePairing (approvePairing sTest "abcdqrst" 5).2 "abcdqrst" 9).1 = none :=
  C1_approvePairing_match_consumes sTest pTest "abcdqrst" 5 9 rfl (by decide) (by decide)

/-- **C2.** With an unexpired pending record and a code that does not match
case-insensitively, `approvePairing` returns `none` and leaves the state
unchanged, and any later read within the TTL still returns the record. -/
theorem C2_approvePairing_mismatch_retryable (s : PairingState) (p : PendingPairing)
    (code : String) (now : Nat)
    (hp : s.pending = some p)
    (hfresh : now - p.createdAt ≤ PAIRING_CODE_TTL_MS)
    (hcode : toUpperCase p.code ≠ toUpperCase code) :
    approvePairing s code now = (none, s) ∧
    ∀ now2, now2 - p.createdAt ≤ PAIRING_CODE_TTL_MS →
      getPendingPairing s now2 = (some p, s) := by
  have hget := getPendingPairing_fresh s p now hp hfresh
  refine ⟨?_, fun now2 h2 => getPendingPairing_fresh s p now2 hp h2⟩
  simp [approvePairing, hget, hcode]

/-- Witness for C2 on the concrete fixture: a wrong code leaves `pTest`
readable. -/
theorem C2_witness :
    approvePairing sTest "WRONGCOD" 5 = (none, sTest) ∧
    getPendingPairing sTest 7 = (some pTest, sTest) := by
  have h := C2_approvePairing_mismatch_retryable sTest pTest "WRONGCOD" 5 rfl
    (by decide) (by decide)
  exact ⟨h.1, h.2 7 (by decide)⟩

/-- **C3.** `getPendingPairing` returns the stored record while
`now − createdAt` is within the 10-minute TTL and, when the record is
present but stale, deletes it and returns `none`; immediately after
`createPairingRequest` the very record just stored is returned, and once
the TTL has elapsed (with no intervening read) the read returns `none`.
Expiry happens only inside this read. -/
theorem C3_getPendingPairing_ttl :
    (∀ s p now, s.pending = some p → now - p.createdAt ≤ PAIRING_CODE_TTL_MS →
      getPendingPairing s now = (some p, s)) ∧
    (∀ s p now, s.pending = some p → now - p.createdAt > PAIRING_CODE_TTL_MS →
      getPendingPairing s now = (none, { s with pending := none })) ∧
    (∀ s rand userId roomId roomName now,
      getPendingPairing (createPairingRequest s rand userId roomId roomName now).2 now =
        (some { code := generateCode rand, oderId := userId, roomId := roomId,
                roomName := roomName, createdAt := now },
         (createPairingRequest s rand userId roomId roomName now).2)) ∧
    (∀ s rand userId roomId roomName now now2,
      now2 - now > PAIRING_CODE_TTL_MS →
      (getPendingPairing (createPairingRequest s rand userId roomId roomName now).2 now2).1 =
        none) := by
  refine ⟨getPendingPairing_fresh, fun s p now hp hst => ?_, fun s rand u r n now => ?_,
    fun s rand u r n now now2 h2 => ?_⟩
  · simp [getPendingPairing, hp, hst]
  · simp [createPairingRequest, getPendingPairing]
  · simp [createPairingRequest, getPendingPairing, h2]

/-- Witness for C3 on the concrete fixture: `pTest` is readable at its TTL
boundary and evicted just past it. -/
theorem C3_witness :
    getPendingPairing sTest 600000 = (some pTest, sTest) ∧
    getPendingPairing sTest 600001 = (none, { sTest with pending := none }) := by
  exact ⟨C3_getPendingPairing_ttl.1 sTest pTest 600000 rfl (by decide),
         C3_getPendingPairing_ttl.2.1 sTest pTest 600001 rfl (by decide)⟩

/-! ## Claims about code generation (C6) -/

/-- A concrete index source that always draws index 0. -/
def randZero : Nat → Fin pairingAlphabet.length :=
  fun _ => ⟨0, by decide⟩

/-- **C6, counterexample.** The generator's alphabet has 32 symbols, not 33
as claimed: the 26 letters minus `O` and `I`, plus the digits `2`–`9`. -/
theorem C6_counterexample : pairingAlphabet.length = 32 ∧ ¬ pairingAlphabet.length = 33 := by
  decide

/-- **C6, amended.** Every code returned by the generator has length
exactly 8, every character is drawn from the (32-symbol) alphabet, and
that alphabet excludes the visually ambiguous characters `0`, `O`, `1`
and `I`. -/
theorem C6_generateCode_amended (rand : Nat → Fin pairingAlphabet.length) :
    (generateCode rand).length = 8 ∧
    (∀ c, c ∈ (generateCode rand).data → c ∈ pairingAlphabet) ∧
    pairingAlphabet.length = 32 ∧
    '0' ∉ pairingAlphabet ∧ 'O' ∉ pairingAlphabet ∧
    '1' ∉ pairingAlphabet ∧ 'I' ∉ pairingAlphabet := by
  refine ⟨?_, ?_, by decide, by decide, by decide, by decide, by decide⟩
  · simp [generateCode, String.length, PAIRING_CODE_LENGTH]
  · intro c hc
    simp only [generateCode, List.mem_map, List.mem_range] at hc
    obtain ⟨i, _, rfl⟩ := hc
    exact pairingAlphabet.get_mem (rand i).1 (rand i).2

/-- Witness for the amended C6 at the concrete index source `randZero`. -/
theorem C6_witness :
    (generateCode randZero).length = 8 ∧ 'A' ∈ pairingAlphabet :=
  ⟨(C6_generateCode_amended randZero).1,
   (C6_generateCode_amended randZero).2.1 'A' (by decide)⟩

/-! ## Claims about the configuration loader (C10) -/

/-- A parsed `matrix_config.json` with no credential fields at all. -/
def cfgFileNoCreds : MatrixConfig :=
  { homeserver := none, userId := none, accessToken := none,
    encryption := none, rooms := none, requireMention := none }

/-- An environment in which all three credential variables are set, but
the homeserver one is set to the empty string. -/
def envEmptyHomeserver : MatrixEnv :=
  { MATRIX_HOMESERVER := some "", MATRIX_USER_ID := some "@u:example.org",
    MATRIX_ACCESS_TOKEN := some "tok", MATRIX_ENCRYPTION := none,
    MATRIX_REQUIRE_MENTION := none }

/-- **C10, counterexample.** The missing-credentials error is not raised
*only* when one of the three variables is unset: with the config file
absent and all three variables set — the homeserver one to the empty
string — the loader still raises the error (JS `!homeserver` is true for
`""`). -/
theorem C10_counterexample :
    loadMatrixConfig none envEmptyHomeserver = .error "Matrix credentials not configured" ∧
    envEmptyHomeserver.MATRIX_HOMESERVER.isSome = true ∧
    envEmptyHomeserver.MATRIX_USER_ID.isSome = true ∧
    envEmptyHomeserver.MATRIX_ACCESS_TOKEN.isSome = true :=
  ⟨rfl, rfl, rfl, rfl⟩

/-- **C10, amended.** `loadMatrixConfig` returns the parsed file contents
whenever the file exists, validating nothing (so a config file lacking
credentials never raises the startup error), and the missing-credentials
error is raised exactly when the file is absent and at least one of the
three credential environment variables is unset or empty. -/
theorem C10_loadMatrixConfig_amended :
    (∀ parsed env, loadMatrixConfig (some parsed) env = .ok parsed) ∧
    (∀ env, loadMatrixConfig none env = .error "Matrix credentials not configured" ↔
      (envFalsy env.MATRIX_HOMESERVER || envFalsy env.MATRIX_USER_ID ||
       envFalsy env.MATRIX_ACCESS_TOKEN) = true) := by
  refine ⟨fun parsed env => rfl, fun env => ?_⟩
  by_cases h : (envFalsy env.MATRIX_HOMESERVER || envFalsy env.MATRIX_USER_ID ||
      envFalsy env.MATRIX_ACCESS_TOKEN) = true
  · simp [loadMatrixConfig, h]
  · simp [loadMatrixConfig, h]

/-- Witness for the amended C10: the credential-free parsed file is
returned as-is, and the empty-homeserver environment raises the error. -/
theorem C10_witness :
    loadMatrixConfig (some cfgFileNoCreds) envEmptyHomeserver = .ok cfgFileNoCreds ∧
    loadMatrixConfig none envEmptyHomeserver = .error "Matrix credentials not configured" :=
  ⟨C10_loadMatrixConfig_amended.1 cfgFileNoCreds envEmptyHomeserver,
   (C10_loadMatrixConfig_amended.2 envEmptyHomeserver).mpr (by decide)⟩

/-! ## Claims about the message-admission filter (C4, C5, C7) -/

/-- A per-room config with `enabled: false` and nothing else set. -/
def roomCfgDisabled : MatrixRoomConfig :=
  { enabled := some false, requireMention := none, folder := none, triggerPattern := none }

/-- A concrete monitor configuration: the bot is `@bot:example.org`, one
room is disabled, no global `requireMention` default. -/
def cfgTest : MatrixConfig :=
  { homeserver := some "https://matrix.example.org", userId := some "@bot:example.org",
    accessToken := some "tok", encryption := none,
    rooms := some [("!off:example.org", roomCfgDisabled)], requireMention := none }

/-- `cfgTest` with the global `requireMention` default set to `true`. -/
def cfgMentionTest : MatrixConfig :=
  { cfgTest with requireMention := some true }

/-- A concrete text event from `@alice:example.org`. -/
def evAlice : RoomEvent :=
  { sender := "@alice:example.org",
    content := some { msgtype := some "m.text", body := some " hello " } }

/-- A concrete text event from the bot itself. -/
def evBot : RoomEvent :=
  { sender := "@bot:example.org",
    content := some { msgtype := some "m.text", body := some "@bot hi" } }

/-- A pairing state whose owner's main room is `!main:example.org`. -/
def sMainTest : PairingState :=
  { owner := some { ownerId := "@alice:example.org", mainRoomId := "!main:example.org",
                    pairedAt := 1 },
    pending := none }

/-- **C4.** The admission filter computes `requireMention` as: `false`
whenever `isDM`; otherwise the per-room override if set, else the global
default if set, else `!isMain` — so in the main room (paired, and the
room equals the owner's `mainRoomId`) with no per-room override and the
global default unset, a message with no mention is still dispatched. -/
theorem C4_requireMention_defaults :
    (∀ rc cfg im, computeRequireMention true rc cfg im = false) ∧
    (∀ (rc : Option MatrixRoomConfig) (b : Bool) cfg im,
      rc.bind MatrixRoomConfig.requireMention = some b →
      computeRequireMention false rc cfg im = b) ∧
    (∀ (rc : Option MatrixRoomConfig) (g : Bool) cfg im,
      rc.bind MatrixRoomConfig.requireMention = none → cfg.requireMention = some g →
      computeRequireMention false rc cfg im = g) ∧
    (∀ (rc : Option MatrixRoomConfig) cfg im,
      rc.bind MatrixRoomConfig.requireMention = none → cfg.requireMention = none →
      computeRequireMention false rc cfg im = !im) ∧
    (∀ cfg s roomId ev members mt tt content b o,
      cfg.userId ≠ some ev.sender → ev.content = some content →
      content.msgtype = some "m.text" → content.body = some b → jsTrim b ≠ "" →
      (lookupRoomConfig cfg roomId).bind MatrixRoomConfig.enabled ≠ some false →
      (lookupRoomConfig cfg roomId).bind MatrixRoomConfig.requireMention = none →
      cfg.requireMention = none →
      s.owner = some o → o.mainRoomId = roomId →
      mt (jsTrim b) = false → tt (jsTrim b) = false →
      handleRoomMessage cfg s roomId ev members mt tt =
        .dispatch (jsTrim b) (lookupRoomConfig cfg roomId) true) := by
  refine ⟨fun rc cfg im => rfl, fun rc b cfg im hov => ?_, fun rc g cfg im hov hg => ?_,
    fun rc cfg im hov hg => ?_,
    fun cfg s roomId ev members mt tt content b o hsender hcontent hmsg hbody htrim
      hen hov hg howner hmain hmt htt => ?_⟩
  · simp [computeRequireMention, hov]
  · simp [computeRequireMention, hov, hg]
  · simp [computeRequireMention, hov, hg]
  · have hb : b ≠ "" := fun h => htrim (by rw [h]; rfl)
    simp [handleRoomMessage, hsender, hcontent, hmsg, hbody, hb, htrim, hen,
      computeRequireMention, hov, hg, isPaired, isMainRoom, getOwner, howner, hmain,
      hmt, htt]

/-- Witness for C4: in the paired owner's main room, under `cfgTest`
(no per-room entry, global default unset), alice's plain message is
dispatched with `isMain = true` although neither matcher fires. -/
theorem C4_witness :
    handleRoomMessage cfgTest sMainTest "!main:example.org" evAlice
      (some ["@bot:example.org", "@alice:example.org", "@carol:example.org"])
      (fun _ => false) (fun _ => false) =
      .dispatch "hello" none true := by
  have h := C4_requireMention_defaults.2.2.2.2 cfgTest sMainTest "!main:example.org"
    evAlice (some ["@bot:example.org", "@alice:example.org", "@carol:example.org"])
    (fun _ => false) (fun _ => false)
    { msgtype := some "m.text", body := some " hello " } " hello "
    { ownerId := "@alice:example.org", mainRoomId := "!main:example.org", pairedAt := 1 }
    (by decide) rfl rfl rfl (by decide) (by decide) (by decide) rfl rfl rfl rfl rfl
  exact h

/-- **C5.** A room whose joined-member count is at most 2 is treated as a
DM: once the pre-checks pass, the message is dispatched regardless of
mention content and of any (even globally true) `requireMention`
setting; when the membership lookup fails, `isDM` stays false, so the
mention requirement still applies. -/
theorem C5_dm_and_lookup_failure :
    (∀ cfg s roomId ev (l : List String) mt tt content b,
      cfg.userId ≠ some ev.sender → ev.content = some content →
      content.msgtype = some "m.text" → content.body = some b → jsTrim b ≠ "" →
      (lookupRoomConfig cfg roomId).bind MatrixRoomConfig.enabled ≠ some false →
      l.length ≤ 2 →
      handleRoomMessage cfg s roomId ev (some l) mt tt =
        .dispatch (jsTrim b) (lookupRoomConfig cfg roomId)
          (isPaired s && isMainRoom s roomId)) ∧
    (∀ cfg s roomId ev mt tt content b,
      cfg.userId ≠ some ev.sender → ev.content = some content →
      content.msgtype = some "m.text" → content.body = some b → jsTrim b ≠ "" →
      (lookupRoomConfig cfg roomId).bind MatrixRoomConfig.enabled ≠ some false →
      (lookupRoomConfig cfg roomId).bind MatrixRoomConfig.requireMention = none →
      cfg.requireMention = some true →
      mt (jsTrim b) = false → tt (jsTrim b) = false →
      handleRoomMessage cfg s roomId ev none mt tt = .rejectNoMention) := by
  refine ⟨fun cfg s roomId ev l mt tt content b hsender hcontent hmsg hbody htrim hen
      hlen => ?_,
    fun cfg s roomId ev mt tt content b hsender hcontent hmsg hbody htrim hen hov hg
      hmt htt => ?_⟩
  · have hb : b ≠ "" := fun h => htrim (by rw [h]; rfl)
    simp [handleRoomMessage, hsender, hcontent, hmsg, hbody, hb, htrim, hen,
      computeIsDM, hlen, computeRequireMention]
  · have hb : b ≠ "" := fun h => htrim (by rw [h]; rfl)
    simp [handleRoomMessage, hsender, hcontent, hmsg, hbody, hb, htrim, hen,
      computeIsDM, computeRequireMention, hov, hg, hmt, htt]

/-- Witness for C5: with the global mention default `true`, a two-member
room is dispatched without any mention; with a failed membership lookup
the same message is rejected for lack of a mention. -/
theorem C5_witness :
    handleRoomMessage cfgMentionTest sMainTest "!dm:example.org" evAlice
      (some ["@bot:example.org", "@alice:example.org"])
      (fun _ => false) (fun _ => false) =
      .dispatch "hello" none
        (isPaired sMainTest && isMainRoom sMainTest "!dm:example.org") ∧
    handleRoomMessage cfgMentionTest sMainTest "!dm:example.org" evAlice none
      (fun _ => false) (fun _ => false) = .rejectNoMention := by
  refine ⟨C5_dm_and_lookup_failure.1 cfgMentionTest sMainTest "!dm:example.org" evAlice
    ["@bot:example.org", "@alice:example.org"] (fun _ => false) (fun _ => false)
    { msgtype := some "m.text", body := some " hello " } " hello "
    (by decide) rfl rfl rfl (by decide) (by decide) (by decide), ?_⟩
  exact C5_dm_and_lookup_failure.2 cfgMentionTest sMainTest "!dm:example.org" evAlice
    (fun _ => false) (fun _ => false)
    { msgtype := some "m.text", body := some " hello " } " hello "
    (by decide) rfl rfl rfl (by decide) (by decide) (by decide) rfl rfl rfl

/-- **C7.** The rejection pre-checks run in source order and each
short-circuits before any mention evaluation or dispatch: an own-sender
event is rejected first whatever else holds; a missing/non-text/falsy
body is rejected next; a whitespace-only body next; and a room with
`enabled: false` is never dispatched — each of these results is
independent of the member lookup and of both pattern matchers. -/
theorem C7_prechecks_short_circuit :
    (∀ cfg s roomId ev members mt tt,
      cfg.userId = some ev.sender →
      handleRoomMessage cfg s roomId ev members mt tt = .rejectOwnSender) ∧
    (∀ cfg s roomId ev members mt tt,
      cfg.userId ≠ some ev.sender → ev.content = none →
      handleRoomMessage cfg s roomId ev members mt tt = .rejectNonText) ∧
    (∀ cfg s roomId ev members mt tt content,
      cfg.userId ≠ some ev.sender → ev.content = some content →
      (content.msgtype ≠ some "m.text" ∨ content.body.getD "" = "") →
      handleRoomMessage cfg s roomId ev members mt tt = .rejectNonText) ∧
    (∀ cfg s roomId ev members mt tt content b,
      cfg.userId ≠ some ev.sender → ev.content = some content →
      content.msgtype = some "m.text" → content.body = some b → b ≠ "" →
      jsTrim b = "" →
      handleRoomMessage cfg s roomId ev members mt tt = .rejectEmptyBody) ∧
    (∀ cfg s roomId ev members mt tt content b,
      cfg.userId ≠ some ev.sender → ev.content = some content →
      content.msgtype = some "m.text" → content.body = some b → jsTrim b ≠ "" →
      (lookupRoomConfig cfg roomId).bind MatrixRoomConfig.enabled = some false →
      handleRoomMessage cfg s roomId ev members mt tt = .rejectDisabled) := by
  refine ⟨fun cfg s roomId ev members mt tt hsender => ?_,
    fun cfg s roomId ev members mt tt hsender hcontent => ?_,
    fun cfg s roomId ev members mt tt content hsender hcontent hbad => ?_,
    fun cfg s roomId ev members mt tt content b hsender hcontent hmsg hbody hb
      htrim => ?_,
    fun cfg s roomId ev members mt tt content b hsender hcontent hmsg hbody htrim
      hdis => ?_⟩
  · simp [handleRoomMessage, hsender]
  · simp [handleRoomMessage, hsender, hcontent]
  · rcases hbad with hbad | hbad <;>
      simp [handleRoomMessage, hsender, hcontent, hbad]
  · simp [handleRoomMessage, hsender, hcontent, hmsg, hbody, hb, htrim]
  · have hb : b ≠ "" := fun h => htrim (by rw [h]; rfl)
    simp [handleRoomMessage, hsender, hcontent, hmsg, hbody, hb, htrim, hdis]

/-- Witness for C7: the bot's own message (which even contains a mention)
is rejected as own-sender, and alice's mention-bearing message in the
disabled room is rejected as disabled, with the matchers returning true
throughout. -/
theorem C7_witness :
    handleRoomMessage cfgTest sMainTest "!off:example.org" evBot
      (some ["@bot:example.org", "@alice:example.org"])
      (fun _ => true) (fun _ => true) = .rejectOwnSender ∧
    handleRoomMessage cfgTest sMainTest "!off:example.org" evAlice
      (some ["@bot:example.org", "@alice:example.org"])
      (fun _ => true) (fun _ => true) = .rejectDisabled := by
  refine ⟨C7_prechecks_short_circuit.1 cfgTest sMainTest "!off:example.org" evBot
    (some ["@bot:example.org", "@alice:example.org"])
    (fun _ => true) (fun _ => true) rfl, ?_⟩
  exact C7_prechecks_short_circuit.2.2.2.2 cfgTest sMainTest "!off:example.org" evAlice
    (some ["@bot:example.org", "@alice:example.org"])
    (fun _ => true) (fun _ => true)
    { msgtype := some "m.text", body := some " hello " } " hello "
    (by decide) rfl rfl rfl (by decide) (by decide)

/-! ## Claims about the pairing CLI (C8, C9) -/

/-- **C8.** Invoked with a code argument while an owner record already
exists, the CLI reports the existing owner and exits with status 1
without ever calling `approvePairing` — so a second pairing attempt with
any code reports that the system is already paired. -/
theorem C8_cli_refuses_repairing (s : PairingState) (o : Owner) (code : String)
    (groups : List (String × RegisteredGroup)) (mainGroupFolder : String) (now : Nat)
    (hown : s.owner = some o) (hcode : code ≠ "") :
    pairCli (some code) s groups mainGroupFolder now =
      { outcome := .alreadyPaired o, state := s, groups := groups,
        calledApprovePairing := false } ∧
    (pairCli (some code) s groups mainGroupFolder now).outcome.exitCode = 1 := by
  have h : pairCli (some code) s groups mainGroupFolder now =
      { outcome := .alreadyPaired o, state := s, groups := groups,
        calledApprovePairing := false } := by
    simp [pairCli, hcode, getOwner, hown]
  exact ⟨h, by rw [h]; rfl⟩

/-- Witness for C8: with `sPairedTest` already paired, the CLI rejects an
arbitrary code without approving. -/
theorem C8_witness :
    pairCli (some "ZZZZZZZZ") sPairedTest [] "main" 5 =
      { outcome := .alreadyPaired ownerTest, state := sPairedTest, groups := [],
        calledApprovePairing := false } ∧
    (pairCli (some "ZZZZZZZZ") sPairedTest [] "main" 5).outcome.exitCode = 1 :=
  C8_cli_refuses_repairing sPairedTest ownerTest "ZZZZZZZZ" [] "main" 5 rfl (by decide)

/-- **C9.** `approvePairing` itself never inspects the owner slot: in a
state that is already paired but holds an unexpired matching pending
record, it overwrites the existing owner with one built from the pending
record; the refusal to re-pair lives only in the CLI entry point, which
in that same state answers "already paired" without calling
`approvePairing`. -/
theorem C9_approvePairing_overwrites_owner (s : PairingState) (p : PendingPairing)
    (o : Owner) (code : String) (now : Nat)
    (hown : s.owner = some o) (hp : s.pending = some p)
    (hfresh : now - p.createdAt ≤ PAIRING_CODE_TTL_MS)
    (hcode : toUpperCase p.code = toUpperCase code) :
    approvePairing s code now =
      (some { ownerId := p.oderId, mainRoomId := p.roomId, pairedAt := now },
       { owner := some { ownerId := p.oderId, mainRoomId := p.roomId, pairedAt := now },
         pending := none }) ∧
    (∀ groups mainGroupFolder c, c ≠ "" →
      (pairCli (some c) s groups mainGroupFolder now).outcome = .alreadyPaired o ∧
      (pairCli (some c) s groups mainGroupFolder now).calledApprovePairing = false) := by
  have hget := getPendingPairing_fresh s p now hp hfresh
  refine ⟨by simp [approvePairing, hget, hcode], fun groups mgf c hc => ?_⟩
  constructor <;> simp [pairCli, hc, getOwner, hown]

/-- Witness for C9: in `sPairedTest` (owner `@bob`, pending `pTest` from
`@alice`), the service call replaces the owner with `@alice` while the
CLI refuses. -/
theorem C9_witness :
    approvePairing sPairedTest "ABCDQRST" 5 =
      (some { ownerId := "@alice:example.org", mainRoomId := "!main:example.org",
              pairedAt := 5 },
       { owner := some { ownerId := "@alice:example.org",
                         mainRoomId := "!main:example.org", pairedAt := 5 },
         pending := none }) ∧
    (pairCli (some "ABCDQRST") sPairedTest [] "main" 5).outcome =
      .alreadyPaired ownerTest ∧
    (pairCli (some "ABCDQRST") sPairedTest [] "main" 5).calledApprovePairing = false := by
  have h := C9_approvePairing_overwrites_owner sPairedTest pTest ownerTest "ABCDQRST" 5
    rfl rfl (by decide) (by decide)
  exact ⟨h.1, (h.2 [] "main" "ABCDQRST" (by decide)).1,
    (h.2 [] "main" "ABCDQRST" (by decide)).2⟩

end NanoClaw
